import Mathlib

/-
  Shallow embedding of fundraising/forms.py: the PaymentForm validation rules
  and the make_donation donation-processing transaction.

  The Stripe client is modelled as a record of three response functions
  (customer creation, charge creation, subscription creation), each returning
  either a processor-assigned identifier or a StripeError mirroring the
  exception classes of the stripe library that the code dispatches on.
  make_donation additionally records the exact sequence of processor calls it
  issues, together with the argument values passed, and the list of Donation
  rows written by Donation.objects.create.
-/

namespace Fundraising

/-- The INTERVAL_CHOICES tuple of forms.py: the four recognized billing
intervals with their display labels. -/
def INTERVAL_CHOICES : List (String × String) :=
  [("monthly", "Monthly donation"),
   ("quarterly", "Quarterly donation"),
   ("yearly", "Yearly donation"),
   ("onetime", "One-time donation")]

/-- Errors the stripe client can raise, mirroring the exception classes the
except-chain of make_donation dispatches on: stripe.error.CardError (carrying
the processor-supplied decline text that str(card_error) produces),
stripe.error.InvalidRequestError, stripe.error.APIConnectionError,
stripe.error.AuthenticationError, and the catch-all arm for any other
stripe.StripeError or unexpected exception. -/
inductive StripeError
  | cardError (reason : String)
  | invalidRequestError
  | apiConnectionError
  | authenticationError
  | otherStripeError (message : String)
  | otherException (message : String)
  deriving DecidableEq

/-- One call issued to the Stripe client, with the argument values the code
passes: stripe.Customer.create(card=...), stripe.Charge.create(amount=...,
currency=..., customer=..., receipt_email=...), or
customer.subscriptions.create(plan=..., quantity=...). -/
inductive ProcCall
  | createCustomer (card : String)
  | createCharge (amount : Int) (currency : String) (customer : String)
      (receipt_email : Option String)
  | createSubscription (customer : String) (plan : String) (quantity : Int)
  deriving DecidableEq

/-- The Stripe client: each operation returns the processor-assigned
identifier or raises a StripeError. -/
structure Processor where
  customerCreate : String → Except StripeError String
  chargeCreate : Int → String → String → Option String → Except StripeError String
  subscriptionsCreate : String → String → Int → Except StripeError String

/-- The cleaned_data dictionary that make_donation reads: the values produced
by PaymentForm validation. amount is a Python int (IntegerField),
receipt_email a string (CharField, empty when left blank), interval the
selected choice value, campaign an optional Campaign reference, stripe_token
the hidden Stripe.js token. -/
structure CleanedData where
  receipt_email : String
  amount : Int
  campaign : Option String
  stripe_token : String
  interval : String
  deriving DecidableEq

/-- The Donation row created by Donation.objects.create in make_donation,
with the fields the donation_params dictionary carries. -/
structure Donation where
  amount : Int
  stripe_customer_id : String
  stripe_charge_id : String
  stripe_subscription_id : String
  receipt_email : String
  campaign : Option String
  deriving DecidableEq

/-- The Python expression receipt_email or None: an empty string is turned
into None before being handed to stripe.Charge.create. -/
def orNoneIfEmpty (s : String) : Option String :=
  if s = "" then none else some s

/-- The try-block of make_donation: create the Stripe customer, then branch
on interval; onetime issues stripe.Charge.create with amount in cents
(int(amount * 100)), currency usd and the normalized receipt_email, every
other interval issues customer.subscriptions.create with interval as the
plan and int(amount) as the quantity. Returns, on success, the triple
(customer.id, charge_id, subscription_id) exactly as the code binds them
(the identifier of the branch not taken is the empty string), or the
StripeError the first failing call raised; paired with the list of processor
calls issued. -/
def tryBlock (proc : Processor) (cd : CleanedData) :
    Except StripeError (String × String × String) × List ProcCall :=
  match proc.customerCreate cd.stripe_token with
  | .error e => (.error e, [ProcCall.createCustomer cd.stripe_token])
  | .ok customer_id =>
    if cd.interval = "onetime" then
      match proc.chargeCreate (cd.amount * 100) "usd" customer_id
          (orNoneIfEmpty cd.receipt_email) with
      | .error e =>
          (.error e,
           [ProcCall.createCustomer cd.stripe_token,
            ProcCall.createCharge (cd.amount * 100) "usd" customer_id
              (orNoneIfEmpty cd.receipt_email)])
      | .ok charge_id =>
          (.ok (customer_id, charge_id, ""),
           [ProcCall.createCustomer cd.stripe_token,
            ProcCall.createCharge (cd.amount * 100) "usd" customer_id
              (orNoneIfEmpty cd.receipt_email)])
    else
      match proc.subscriptionsCreate customer_id cd.interval cd.amount with
      | .error e =>
          (.error e,
           [ProcCall.createCustomer cd.stripe_token,
            ProcCall.createSubscription customer_id cd.interval cd.amount])
      | .ok subscription_id =>
          (.ok (customer_id, "", subscription_id),
           [ProcCall.createCustomer cd.stripe_token,
            ProcCall.createSubscription customer_id cd.interval cd.amount])

/-- The user-facing DonationError text raised on stripe.error.CardError,
interpolating str(card_error). -/
def cardDeclinedMessage (reason : String) : String :=
  "We\x27re sorry but we had problems charging your card. " ++
  "Here is what Stripe replied: \"" ++ reason ++ "\""

/-- The user-facing DonationError text raised on
stripe.error.InvalidRequestError. -/
def invalidRequestMessage : String :=
  "We\x27re sorry but something went wrong while processing " ++
  "your card details. No charge was done. Please try " ++
  "again or get in touch with us."

/-- The user-facing DonationError text raised on
stripe.error.APIConnectionError. -/
def apiConnectionMessage : String :=
  "We\x27re sorry but we have technical difficulties " ++
  "reaching our payment processor Stripe. No charge " ++
  "was done. Please try again later."

/-- How one run of make_donation ends: the Donation returned on success, a
DonationError raised with a user-facing message, a stripe error re-raised
unchanged by a bare raise, or a database exception propagating out of
Donation.objects.create (which sits in the else-clause of the try statement,
outside the reach of its except-clauses). -/
inductive DonationOutcome
  | success (d : Donation)
  | donationError (message : String)
  | reraised (e : StripeError)
  | persistenceException (message : String)
  deriving DecidableEq

/-- The except-chain of make_donation in source order: CardError and
InvalidRequestError and APIConnectionError each raise a DonationError with a
fixed user-facing message, AuthenticationError is re-raised bare, and the
final arm for any other StripeError or Exception is also re-raised bare. -/
def dispatchError : StripeError → DonationOutcome
  | .cardError reason => .donationError (cardDeclinedMessage reason)
  | .invalidRequestError => .donationError invalidRequestMessage
  | .apiConnectionError => .donationError apiConnectionMessage
  | .authenticationError => .reraised .authenticationError
  | .otherStripeError m => .reraised (.otherStripeError m)
  | .otherException m => .reraised (.otherException m)

/-- The donation_params dictionary built in the else-clause of make_donation:
amount, receipt_email and campaign are copied from cleaned_data, the three
stripe identifiers come from the try-block. -/
def donationOf (cd : CleanedData)
    (customer_id charge_id subscription_id : String) : Donation :=
  { amount := cd.amount,
    stripe_customer_id := customer_id,
    stripe_charge_id := charge_id,
    stripe_subscription_id := subscription_id,
    receipt_email := cd.receipt_email,
    campaign := cd.campaign }

/-- PaymentForm.make_donation: run the try-block against the processor; on a
stripe error run the except-chain; otherwise build the donation_params
dictionary and call Donation.objects.create (modelled by the save
collaborator, whose failure propagates as a raw exception because the
else-clause is outside the except-chain). Returns the outcome, the processor
calls issued, and the list of Donation rows actually written. -/
def make_donation (proc : Processor) (save : Donation → Except String Unit)
    (cd : CleanedData) : DonationOutcome × List ProcCall × List Donation :=
  match tryBlock proc cd with
  | (.error e, calls) => (dispatchError e, calls, [])
  | (.ok (customer_id, charge_id, subscription_id), calls) =>
      let donation := donationOf cd customer_id charge_id subscription_id
      match save donation with
      | .error m => (.persistenceException m, calls, [])
      | .ok _ => (.success donation, calls, [donation])

/-- The raw field values submitted to PaymentForm before validation. amount
is the parsed integer of the amount field, none when the input is not
numeric; the remaining fields arrive as strings. -/
structure RawPayment where
  amount : Option Int
  interval : String
  receipt_email : String
  campaign : Option String
  stripe_token : String
  deriving DecidableEq

/-- Validation of the amount IntegerField (required, min_value=1): a
non-numeric value or a value below 1 is rejected. -/
def clean_amount : Option Int → Except String Int
  | none => .error "Enter a whole number."
  | some n =>
      if n < 1 then .error "Ensure this value is greater than or equal to 1."
      else .ok n

/-- Validation of the interval ChoiceField: the value must be one of the
INTERVAL_CHOICES keys. -/
def clean_interval (s : String) : Except String String :=
  if (INTERVAL_CHOICES.map Prod.fst).contains s then .ok s
  else .error "Select a valid choice."

/-- Validation of the required stripe_token CharField. -/
def clean_stripe_token (s : String) : Except String String :=
  if s = "" then .error "This field is required." else .ok s

/-- The error messages of one field validation result, for collecting the
per-field errors of the form. -/
def errList {α : Type} : Except String α → List String
  | .error m => [m]
  | .ok _ => []

/-- PaymentForm.is_valid / full_clean: validate amount, interval and
stripe_token; receipt_email (CharField, required=False) and campaign
(required=False) pass through unvalidated. Produces cleaned_data or the list
of field errors. -/
def full_clean (raw : RawPayment) : Except (List String) CleanedData :=
  match clean_amount raw.amount, clean_interval raw.interval,
      clean_stripe_token raw.stripe_token with
  | .ok a, .ok i, .ok t =>
      .ok { receipt_email := raw.receipt_email, amount := a,
            campaign := raw.campaign, stripe_token := t, interval := i }
  | ra, ri, rt => .error (errList ra ++ errList ri ++ errList rt)

/-- How a full request run ends: rejected by form validation, or completed
by make_donation with one of its outcomes. -/
inductive ProcessResult
  | invalid (errors : List String)
  | completed (o : DonationOutcome)
  deriving DecidableEq

/-- The donation view flow: validate the submitted form and, only when it is
valid, call make_donation. A validation failure issues no processor call and
writes no Donation. -/
def process (proc : Processor) (save : Donation → Except String Unit)
    (raw : RawPayment) : ProcessResult × List ProcCall × List Donation :=
  match full_clean raw with
  | .error errs => (.invalid errs, [], [])
  | .ok cd =>
      match make_donation proc save cd with
      | (o, calls, saved) => (.completed o, calls, saved)

/-! Equation lemmas describing each path through the try-block. -/

/-- When stripe.Customer.create raises, the try-block stops after that one
call. -/
theorem tryBlock_customer_error (proc : Processor) (cd : CleanedData)
    (e : StripeError) (hc : proc.customerCreate cd.stripe_token = .error e) :
    tryBlock proc cd = (.error e, [ProcCall.createCustomer cd.stripe_token]) := by
  unfold tryBlock
  rw [hc]

/-- When the customer call succeeds, interval is onetime and
stripe.Charge.create raises, the try-block stops after the two calls. -/
theorem tryBlock_charge_error (proc : Processor) (cd : CleanedData)
    (cu : String) (e : StripeError)
    (hc : proc.customerCreate cd.stripe_token = .ok cu)
    (hi : cd.interval = "onetime")
    (hch : proc.chargeCreate (cd.amount * 100) "usd" cu
        (orNoneIfEmpty cd.receipt_email) = .error e) :
    tryBlock proc cd =
      (.error e,
       [ProcCall.createCustomer cd.stripe_token,
        ProcCall.createCharge (cd.amount * 100) "usd" cu
          (orNoneIfEmpty cd.receipt_email)]) := by
  unfold tryBlock
  rw [hc]
  dsimp only
  rw [if_pos hi, hch]

/-- The onetime success path: customer created, then a charge created for
amount * 100 cents in usd with the normalized receipt email; the
subscription identifier stays the empty string. -/
theorem tryBlock_charge_ok (proc : Processor) (cd : CleanedData)
    (cu ch : String)
    (hc : proc.customerCreate cd.stripe_token = .ok cu)
    (hi : cd.interval = "onetime")
    (hch : proc.chargeCreate (cd.amount * 100) "usd" cu
        (orNoneIfEmpty cd.receipt_email) = .ok ch) :
    tryBlock proc cd =
      (.ok (cu, ch, ""),
       [ProcCall.createCustomer cd.stripe_token,
        ProcCall.createCharge (cd.amount * 100) "usd" cu
          (orNoneIfEmpty cd.receipt_email)]) := by
  unfold tryBlock
  rw [hc]
  dsimp only
  rw [if_pos hi, hch]

/-- When the customer call succeeds, interval is recurring and
customer.subscriptions.create raises, the try-block stops after the two
calls. -/
theorem tryBlock_sub_error (proc : Processor) (cd : CleanedData)
    (cu : String) (e : StripeError)
    (hc : proc.customerCreate cd.stripe_token = .ok cu)
    (hi : ¬ cd.interval = "onetime")
    (hs : proc.subscriptionsCreate cu cd.interval cd.amount = .error e) :
    tryBlock proc cd =
      (.error e,
       [ProcCall.createCustomer cd.stripe_token,
        ProcCall.createSubscription cu cd.interval cd.amount]) := by
  unfold tryBlock
  rw [hc]
  dsimp only
  rw [if_neg hi, hs]

/-- The recurring success path: customer created, then a subscription
created with interval as the plan and the unmultiplied amount as the
quantity; the charge identifier stays the empty string. -/
theorem tryBlock_sub_ok (proc : Processor) (cd : CleanedData)
    (cu sub : String)
    (hc : proc.customerCreate cd.stripe_token = .ok cu)
    (hi : ¬ cd.interval = "onetime")
    (hs : proc.subscriptionsCreate cu cd.interval cd.amount = .ok sub) :
    tryBlock proc cd =
      (.ok (cu, "", sub),
       [ProcCall.createCustomer cd.stripe_token,
        ProcCall.createSubscription cu cd.interval cd.amount]) := by
  unfold tryBlock
  rw [hc]
  dsimp only
  rw [if_neg hi, hs]

/-- Exhaustive case description of one run of the try-block: the customer
call fails, or it succeeds and the run continues down the onetime charge
branch or the recurring subscription branch, each of which fails or
succeeds. -/
theorem tryBlock_cases (proc : Processor) (cd : CleanedData) :
    (∃ e, proc.customerCreate cd.stripe_token = .error e ∧
       tryBlock proc cd = (.error e, [ProcCall.createCustomer cd.stripe_token])) ∨
    (∃ cu e, proc.customerCreate cd.stripe_token = .ok cu ∧
       cd.interval = "onetime" ∧
       proc.chargeCreate (cd.amount * 100) "usd" cu
         (orNoneIfEmpty cd.receipt_email) = .error e ∧
       tryBlock proc cd =
         (.error e,
          [ProcCall.createCustomer cd.stripe_token,
           ProcCall.createCharge (cd.amount * 100) "usd" cu
             (orNoneIfEmpty cd.receipt_email)])) ∨
    (∃ cu ch, proc.customerCreate cd.stripe_token = .ok cu ∧
       cd.interval = "onetime" ∧
       proc.chargeCreate (cd.amount * 100) "usd" cu
         (orNoneIfEmpty cd.receipt_email) = .ok ch ∧
       tryBlock proc cd =
         (.ok (cu, ch, ""),
          [ProcCall.createCustomer cd.stripe_token,
           ProcCall.createCharge (cd.amount * 100) "usd" cu
             (orNoneIfEmpty cd.receipt_email)])) ∨
    (∃ cu e, proc.customerCreate cd.stripe_token = .ok cu ∧
       ¬ cd.interval = "onetime" ∧
       proc.subscriptionsCreate cu cd.interval cd.amount = .error e ∧
       tryBlock proc cd =
         (.error e,
          [ProcCall.createCustomer cd.stripe_token,
           ProcCall.createSubscription cu cd.interval cd.amount])) ∨
    (∃ cu sub, proc.customerCreate cd.stripe_token = .ok cu ∧
       ¬ cd.interval = "onetime" ∧
       proc.subscriptionsCreate cu cd.interval cd.amount = .ok sub ∧
       tryBlock proc cd =
         (.ok (cu, "", sub),
          [ProcCall.createCustomer cd.stripe_token,
           ProcCall.createSubscription cu cd.interval cd.amount])) := by
  cases hc : proc.customerCreate cd.stripe_token with
  | error e => exact Or.inl ⟨e, rfl, tryBlock_customer_error proc cd e hc⟩
  | ok cu =>
    by_cases hi : cd.interval = "onetime"
    · cases hch : proc.chargeCreate (cd.amount * 100) "usd" cu
          (orNoneIfEmpty cd.receipt_email) with
      | error e =>
          exact Or.inr (Or.inl
            ⟨cu, e, rfl, hi, hch, tryBlock_charge_error proc cd cu e hc hi hch⟩)
      | ok ch =>
          exact Or.inr (Or.inr (Or.inl
            ⟨cu, ch, rfl, hi, hch, tryBlock_charge_ok proc cd cu ch hc hi hch⟩))
    · cases hs : proc.subscriptionsCreate cu cd.interval cd.amount with
      | error e =>
          exact Or.inr (Or.inr (Or.inr (Or.inl
            ⟨cu, e, rfl, hi, hs, tryBlock_sub_error proc cd cu e hc hi hs⟩)))
      | ok sub =>
          exact Or.inr (Or.inr (Or.inr (Or.inr
            ⟨cu, sub, rfl, hi, hs, tryBlock_sub_ok proc cd cu sub hc hi hs⟩)))

/-! Equation lemmas describing make_donation in terms of the try-block. -/

/-- When the try-block raises a stripe error, make_donation runs the
except-chain on it and writes nothing. -/
theorem make_donation_of_tryBlock_error (proc : Processor)
    (save : Donation → Except String Unit) (cd : CleanedData)
    (e : StripeError) (calls : List ProcCall)
    (h : tryBlock proc cd = (.error e, calls)) :
    make_donation proc save cd = (dispatchError e, calls, []) := by
  unfold make_donation
  rw [h]

/-- When the try-block succeeds and Donation.objects.create raises, the
database exception propagates and nothing is written. -/
theorem make_donation_of_save_error (proc : Processor)
    (save : Donation → Except String Unit) (cd : CleanedData)
    (cu ch sub : String) (calls : List ProcCall) (m : String)
    (h : tryBlock proc cd = (.ok (cu, ch, sub), calls))
    (hs : save (donationOf cd cu ch sub) = .error m) :
    make_donation proc save cd = (.persistenceException m, calls, []) := by
  unfold make_donation
  rw [h]
  dsimp only
  rw [hs]

/-- When the try-block succeeds and Donation.objects.create succeeds, the
donation built from donation_params is returned and written exactly once. -/
theorem make_donation_of_save_ok (proc : Processor)
    (save : Donation → Except String Unit) (cd : CleanedData)
    (cu ch sub : String) (calls : List ProcCall)
    (h : tryBlock proc cd = (.ok (cu, ch, sub), calls))
    (hs : save (donationOf cd cu ch sub) = .ok ()) :
    make_donation proc save cd =
      (.success (donationOf cd cu ch sub), calls, [donationOf cd cu ch sub]) := by
  unfold make_donation
  rw [h]
  dsimp only
  rw [hs]

/-- The except-chain never produces a success outcome. -/
theorem dispatchError_ne_success (e : StripeError) (d : Donation) :
    dispatchError e ≠ DonationOutcome.success d := by
  cases e <;> simp [dispatchError]

/-- The processor calls a run of make_donation issues are exactly those of
its try-block; the persistence step issues none. -/
theorem make_donation_calls (proc : Processor)
    (save : Donation → Except String Unit) (cd : CleanedData) :
    (make_donation proc save cd).2.1 = (tryBlock proc cd).2 := by
  rcases tryBlock_cases proc cd with
      ⟨e, _, htb⟩ | ⟨cu, e, _, _, _, htb⟩ | ⟨cu, ch, _, _, _, htb⟩ |
      ⟨cu, e, _, _, _, htb⟩ | ⟨cu, sub, _, _, _, htb⟩
  · rw [make_donation_of_tryBlock_error proc save cd e _ htb, htb]
  · rw [make_donation_of_tryBlock_error proc save cd e _ htb, htb]
  · cases hsv : save (donationOf cd cu ch "") with
    | error m =>
        rw [make_donation_of_save_error proc save cd cu ch "" _ m htb hsv, htb]
    | ok u =>
        cases u
        rw [make_donation_of_save_ok proc save cd cu ch "" _ htb hsv, htb]
  · rw [make_donation_of_tryBlock_error proc save cd e _ htb, htb]
  · cases hsv : save (donationOf cd cu "" sub) with
    | error m =>
        rw [make_donation_of_save_error proc save cd cu "" sub _ m htb hsv, htb]
    | ok u =>
        cases u
        rw [make_donation_of_save_ok proc save cd cu "" sub _ htb hsv, htb]

/-- Every processor call of a run carries exactly the argument values the
code passes: the customer call carries the stripe token; a charge call, only
present on onetime runs, carries the amount in cents, the usd currency and
the normalized receipt email; a subscription call, only present on recurring
runs, carries the interval as plan and the unmultiplied amount as
quantity. -/
theorem make_donation_call_shape (proc : Processor)
    (save : Donation → Except String Unit) (cd : CleanedData) :
    ∀ call ∈ (make_donation proc save cd).2.1,
      call = ProcCall.createCustomer cd.stripe_token ∨
      (cd.interval = "onetime" ∧ ∃ cu,
        call = ProcCall.createCharge (cd.amount * 100) "usd" cu
          (orNoneIfEmpty cd.receipt_email)) ∨
      (¬ cd.interval = "onetime" ∧ ∃ cu,
        call = ProcCall.createSubscription cu cd.interval cd.amount) := by
  rw [make_donation_calls]
  rcases tryBlock_cases proc cd with
      ⟨e, _, htb⟩ | ⟨cu, e, _, hi, _, htb⟩ | ⟨cu, ch, _, hi, _, htb⟩ |
      ⟨cu, e, _, hi, _, htb⟩ | ⟨cu, sub, _, hi, _, htb⟩ <;>
    rw [htb] <;> intro call hcall <;> simp only [List.mem_cons,
      List.mem_singleton, List.not_mem_nil, or_false] at hcall
  · exact Or.inl hcall
  · rcases hcall with rfl | rfl
    · exact Or.inl rfl
    · exact Or.inr (Or.inl ⟨hi, cu, rfl⟩)
  · rcases hcall with rfl | rfl
    · exact Or.inl rfl
    · exact Or.inr (Or.inl ⟨hi, cu, rfl⟩)
  · rcases hcall with rfl | rfl
    · exact Or.inl rfl
    · exact Or.inr (Or.inr ⟨hi, cu, rfl⟩)
  · rcases hcall with rfl | rfl
    · exact Or.inl rfl
    · exact Or.inr (Or.inr ⟨hi, cu, rfl⟩)

/-- Every Donation row a run writes copies amount, receipt_email and
campaign from cleaned_data and is exactly the row the run returns as its
success outcome. -/
theorem make_donation_saved_shape (proc : Processor)
    (save : Donation → Except String Unit) (cd : CleanedData) :
    ∀ d ∈ (make_donation proc save cd).2.2,
      d.amount = cd.amount ∧ d.receipt_email = cd.receipt_email ∧
      d.campaign = cd.campaign ∧
      (make_donation proc save cd).1 = DonationOutcome.success d := by
  rcases tryBlock_cases proc cd with
      ⟨e, _, htb⟩ | ⟨cu, e, _, _, _, htb⟩ | ⟨cu, ch, _, _, _, htb⟩ |
      ⟨cu, e, _, _, _, htb⟩ | ⟨cu, sub, _, _, _, htb⟩
  · rw [make_donation_of_tryBlock_error proc save cd e _ htb]
    intro d hd
    simp at hd
  · rw [make_donation_of_tryBlock_error proc save cd e _ htb]
    intro d hd
    simp at hd
  · cases hsv : save (donationOf cd cu ch "") with
    | error m =>
        rw [make_donation_of_save_error proc save cd cu ch "" _ m htb hsv]
        intro d hd
        simp at hd
    | ok u =>
        cases u
        rw [make_donation_of_save_ok proc save cd cu ch "" _ htb hsv]
        intro d hd
        simp only [List.mem_singleton] at hd
        subst hd
        exact ⟨rfl, rfl, rfl, rfl⟩
  · rw [make_donation_of_tryBlock_error proc save cd e _ htb]
    intro d hd
    simp at hd
  · cases hsv : save (donationOf cd cu "" sub) with
    | error m =>
        rw [make_donation_of_save_error proc save cd cu "" sub _ m htb hsv]
        intro d hd
        simp at hd
    | ok u =>
        cases u
        rw [make_donation_of_save_ok proc save cd cu "" sub _ htb hsv]
        intro d hd
        simp only [List.mem_singleton] at hd
        subst hd
        exact ⟨rfl, rfl, rfl, rfl⟩

/-- A successful run pins down everything: the written row, the successful
save, the customer call behind customer_id, the copied fields, and the
branch taken with its processor call. -/
theorem make_donation_success_shape (proc : Processor)
    (save : Donation → Except String Unit) (cd : CleanedData)
    (d : Donation) (calls : List ProcCall) (saved : List Donation)
    (h : make_donation proc save cd = (DonationOutcome.success d, calls, saved)) :
    saved = [d] ∧ save d = .ok () ∧
    proc.customerCreate cd.stripe_token = .ok d.stripe_customer_id ∧
    d.amount = cd.amount ∧ d.receipt_email = cd.receipt_email ∧
    d.campaign = cd.campaign ∧
    ((cd.interval = "onetime" ∧ d.stripe_subscription_id = "" ∧
        proc.chargeCreate (cd.amount * 100) "usd" d.stripe_customer_id
          (orNoneIfEmpty cd.receipt_email) = .ok d.stripe_charge_id) ∨
     (¬ cd.interval = "onetime" ∧ d.stripe_charge_id = "" ∧
        proc.subscriptionsCreate d.stripe_customer_id cd.interval cd.amount =
          .ok d.stripe_subscription_id)) := by
  rcases tryBlock_cases proc cd with
      ⟨e, _, htb⟩ | ⟨cu, e, _, _, _, htb⟩ | ⟨cu, ch, hc, hi, hch, htb⟩ |
      ⟨cu, e, _, _, _, htb⟩ | ⟨cu, sub, hc, hi, hs, htb⟩
  · rw [make_donation_of_tryBlock_error proc save cd e _ htb] at h
    simp only [Prod.mk.injEq] at h
    exact absurd h.1 (dispatchError_ne_success e d)
  · rw [make_donation_of_tryBlock_error proc save cd e _ htb] at h
    simp only [Prod.mk.injEq] at h
    exact absurd h.1 (dispatchError_ne_success e d)
  · cases hsv : save (donationOf cd cu ch "") with
    | error m =>
        rw [make_donation_of_save_error proc save cd cu ch "" _ m htb hsv] at h
        simp at h
    | ok u =>
        cases u
        rw [make_donation_of_save_ok proc save cd cu ch "" _ htb hsv] at h
        simp only [Prod.mk.injEq, DonationOutcome.success.injEq] at h
        obtain ⟨hd, hcalls, hsaved⟩ := h
        subst hd
        subst hcalls
        subst hsaved
        exact ⟨rfl, hsv, hc, rfl, rfl, rfl, Or.inl ⟨hi, rfl, hch⟩⟩
  · rw [make_donation_of_tryBlock_error proc save cd e _ htb] at h
    simp only [Prod.mk.injEq] at h
    exact absurd h.1 (dispatchError_ne_success e d)
  · cases hsv : save (donationOf cd cu "" sub) with
    | error m =>
        rw [make_donation_of_save_error proc save cd cu "" sub _ m htb hsv] at h
        simp at h
    | ok u =>
        cases u
        rw [make_donation_of_save_ok proc save cd cu "" sub _ htb hsv] at h
        simp only [Prod.mk.injEq, DonationOutcome.success.injEq] at h
        obtain ⟨hd, hcalls, hsaved⟩ := h
        subst hd
        subst hcalls
        subst hsaved
        exact ⟨rfl, hsv, hc, rfl, rfl, rfl, Or.inr ⟨hi, rfl, hs⟩⟩

/-! Concrete stub collaborators and requests, used to witness the theorems
on explicit runs. -/

/-- A stub processor on which every call succeeds with a fixed
identifier. -/
def stubProcessor : Processor where
  customerCreate := fun _ => .ok "cus_1"
  chargeCreate := fun _ _ _ _ => .ok "ch_1"
  subscriptionsCreate := fun _ _ _ => .ok "sub_1"

/-- A stub processor whose charge call reports a card decline. -/
def declineProcessor : Processor where
  customerCreate := fun _ => .ok "cus_1"
  chargeCreate := fun _ _ _ _ => .error (.cardError "Your card was declined.")
  subscriptionsCreate := fun _ _ _ => .ok "sub_1"

/-- A stub processor unreachable from the start: the customer call fails
with a connectivity error. -/
def unreachableProcessor : Processor where
  customerCreate := fun _ => .error .apiConnectionError
  chargeCreate := fun _ _ _ _ => .error .apiConnectionError
  subscriptionsCreate := fun _ _ _ => .error .apiConnectionError

/-- A stub processor rejecting the configured credentials: the customer call
fails with an authentication error. -/
def authFailProcessor : Processor where
  customerCreate := fun _ => .error .authenticationError
  chargeCreate := fun _ _ _ _ => .error .authenticationError
  subscriptionsCreate := fun _ _ _ => .error .authenticationError

/-- A persistence collaborator on which Donation.objects.create succeeds. -/
def stubSave : Donation → Except String Unit := fun _ => .ok ()

/-- A persistence collaborator on which Donation.objects.create raises. -/
def failingSave : Donation → Except String Unit :=
  fun _ => .error "database unavailable"

/-- Cleaned data of a 25 dollar onetime donation with a blank receipt email
field. -/
def sampleOnetime : CleanedData :=
  { receipt_email := "", amount := 25, campaign := none,
    stripe_token := "tok_valid", interval := "onetime" }

/-- Cleaned data of a 10 dollar monthly donation with a receipt email. -/
def sampleMonthly : CleanedData :=
  { receipt_email := "donor@example.com", amount := 10, campaign := none,
    stripe_token := "tok_valid", interval := "monthly" }

/-- Raw submitted values with amount 0, used for the validation claims. -/
def sampleRawZero : RawPayment :=
  { amount := some 0, interval := "onetime", receipt_email := "",
    campaign := none, stripe_token := "tok_valid" }

/-! The claims. -/

/-- Claim C1: on every successfully processed donation, exactly one of the
stripe charge and subscription identifiers is non-empty, decided by the
interval: a onetime donation yields a non-empty charge id and an empty
subscription id, every other interval the reverse; assuming the processor
assigns non-empty identifiers. -/
theorem donation_identifier_exclusivity (proc : Processor)
    (save : Donation → Except String Unit) (cd : CleanedData)
    (hch : ∀ a c cu r i, proc.chargeCreate a c cu r = .ok i → i ≠ "")
    (hsub : ∀ cu p q i, proc.subscriptionsCreate cu p q = .ok i → i ≠ "")
    (d : Donation) (calls : List ProcCall) (saved : List Donation)
    (h : make_donation proc save cd = (DonationOutcome.success d, calls, saved)) :
    (cd.interval = "onetime" →
       d.stripe_charge_id ≠ "" ∧ d.stripe_subscription_id = "") ∧
    (cd.interval ≠ "onetime" →
       d.stripe_subscription_id ≠ "" ∧ d.stripe_charge_id = "") := by
  obtain ⟨-, -, -, -, -, -, hbranch⟩ :=
    make_donation_success_shape proc save cd d calls saved h
  rcases hbranch with ⟨hi, hsub0, hcharge⟩ | ⟨hi, hch0, hsubscription⟩
  · exact ⟨fun _ => ⟨hch _ _ _ _ _ hcharge, hsub0⟩, fun hni => absurd hi hni⟩
  · exact ⟨fun h1 => absurd h1 hi, fun _ => ⟨hsub _ _ _ _ hsubscription, hch0⟩⟩

/-- Witness for C1 on the all-success stub run of the 25 dollar onetime
donation. -/
theorem donation_identifier_exclusivity_witness :
    (sampleOnetime.interval = "onetime" →
       (donationOf sampleOnetime "cus_1" "ch_1" "").stripe_charge_id ≠ "" ∧
       (donationOf sampleOnetime "cus_1" "ch_1" "").stripe_subscription_id = "") ∧
    (sampleOnetime.interval ≠ "onetime" →
       (donationOf sampleOnetime "cus_1" "ch_1" "").stripe_subscription_id ≠ "" ∧
       (donationOf sampleOnetime "cus_1" "ch_1" "").stripe_charge_id = "") :=
  donation_identifier_exclusivity stubProcessor stubSave sampleOnetime
    (fun _ _ _ _ i hok => by injection hok with hok; rw [← hok]; decide)
    (fun _ _ _ i hok => by injection hok with hok; rw [← hok]; decide)
    (donationOf sampleOnetime "cus_1" "ch_1" "")
    [ProcCall.createCustomer "tok_valid",
     ProcCall.createCharge 2500 "usd" "cus_1" none]
    [donationOf sampleOnetime "cus_1" "ch_1" ""]
    (by decide)

/-- Claim C2: on every run, every charge call receives amount * 100 in the
fixed currency usd, every subscription call receives the unmultiplied
amount as its quantity, and the written Donation row keeps the unmultiplied
amount, so the major-to-minor conversion happens exactly once, in the charge
branch. -/
theorem amount_unit_conversion (proc : Processor)
    (save : Donation → Except String Unit) (cd : CleanedData) :
    (∀ a c cu r, ProcCall.createCharge a c cu r ∈ (make_donation proc save cd).2.1 →
        a = cd.amount * 100 ∧ c = "usd") ∧
    (∀ cu p q, ProcCall.createSubscription cu p q ∈ (make_donation proc save cd).2.1 →
        q = cd.amount) ∧
    (∀ d ∈ (make_donation proc save cd).2.2, d.amount = cd.amount) := by
  refine ⟨?_, ?_, ?_⟩
  · intro a c cu r hmem
    rcases make_donation_call_shape proc save cd _ hmem with h | ⟨_, cu2, h⟩ | ⟨_, cu2, h⟩
    · simp at h
    · simp only [ProcCall.createCharge.injEq] at h
      exact ⟨h.1, h.2.1⟩
    · simp at h
  · intro cu p q hmem
    rcases make_donation_call_shape proc save cd _ hmem with h | ⟨_, cu2, h⟩ | ⟨_, cu2, h⟩
    · simp at h
    · simp at h
    · simp only [ProcCall.createSubscription.injEq] at h
      exact h.2.2
  · intro d hd
    exact (make_donation_saved_shape proc save cd d hd).1

/-- Witness for C2 on the stub run of the 25 dollar onetime donation, whose
charge call carries 2500 cents in usd. -/
theorem amount_unit_conversion_witness :
    (2500 : Int) = sampleOnetime.amount * 100 ∧ "usd" = "usd" :=
  (amount_unit_conversion stubProcessor stubSave sampleOnetime).1
    2500 "usd" "cus_1" none (by decide)

/-- Claim C3: the code evaluated at the failing input. When the processor
run succeeds (customer cus_1, charge ch_1 for 2500 cents) and
Donation.objects.create then raises, the raw database exception propagates
unchanged: the outcome carries only the database message, under no
PersistenceError classification, with no record of amount, customer id or
charge id for reconciliation, and no Donation row is written. -/
theorem persistence_failure_propagates_raw_exception :
    make_donation stubProcessor failingSave sampleOnetime =
      (DonationOutcome.persistenceException "database unavailable",
       [ProcCall.createCustomer "tok_valid",
        ProcCall.createCharge 2500 "usd" "cus_1" none],
       []) := by decide

/-- Claim C4: on every run whose try-block raises a card decline, the
outcome is the DonationError whose user-facing message contains the
processor-supplied decline reason verbatim, and no Donation row is
written. -/
theorem card_decline_yields_donation_error (proc : Processor)
    (save : Donation → Except String Unit) (cd : CleanedData)
    (reason : String) (calls : List ProcCall)
    (h : tryBlock proc cd = (.error (.cardError reason), calls)) :
    make_donation proc save cd =
      (DonationOutcome.donationError (cardDeclinedMessage reason), calls, []) ∧
    ∃ pre post, cardDeclinedMessage reason = pre ++ reason ++ post := by
  refine ⟨make_donation_of_tryBlock_error proc save cd _ calls h, ?_⟩
  exact ⟨"We\x27re sorry but we had problems charging your card. " ++
    "Here is what Stripe replied: \"", "\"", rfl⟩

/-- Witness for C4 on the stub processor that declines the charge of the
25 dollar onetime donation. -/
theorem card_decline_yields_donation_error_witness :
    make_donation declineProcessor stubSave sampleOnetime =
      (DonationOutcome.donationError
        (cardDeclinedMessage "Your card was declined."),
       [ProcCall.createCustomer "tok_valid",
        ProcCall.createCharge 2500 "usd" "cus_1" none], []) ∧
    ∃ pre post, cardDeclinedMessage "Your card was declined." =
      pre ++ "Your card was declined." ++ post :=
  card_decline_yields_donation_error declineProcessor stubSave sampleOnetime
    "Your card was declined."
    [ProcCall.createCustomer "tok_valid",
     ProcCall.createCharge 2500 "usd" "cus_1" none]
    rfl

/-- Claim C5: on every run whose try-block raises a connectivity failure,
the outcome is the DonationError whose user-facing message says that no
charge was done and asks to try again later, and no Donation row is
written. -/
theorem connection_failure_yields_retry_message (proc : Processor)
    (save : Donation → Except String Unit) (cd : CleanedData)
    (calls : List ProcCall)
    (h : tryBlock proc cd = (.error .apiConnectionError, calls)) :
    make_donation proc save cd =
      (DonationOutcome.donationError apiConnectionMessage, calls, []) ∧
    (∃ pre post, apiConnectionMessage = pre ++ "No charge was done." ++ post) ∧
    (∃ pre post, apiConnectionMessage = pre ++ "Please try again later." ++ post) := by
  refine ⟨make_donation_of_tryBlock_error proc save cd _ calls h, ?_, ?_⟩
  · exact ⟨"We\x27re sorry but we have technical difficulties " ++
      "reaching our payment processor Stripe. ",
      " Please try again later.", by decide⟩
  · exact ⟨"We\x27re sorry but we have technical difficulties " ++
      "reaching our payment processor Stripe. No charge was done. ",
      "", by decide⟩

/-- Witness for C5 on the stub processor that is unreachable from the
customer call on. -/
theorem connection_failure_yields_retry_message_witness :
    make_donation unreachableProcessor stubSave sampleOnetime =
      (DonationOutcome.donationError apiConnectionMessage,
       [ProcCall.createCustomer "tok_valid"], []) ∧
    (∃ pre post, apiConnectionMessage = pre ++ "No charge was done." ++ post) ∧
    (∃ pre post, apiConnectionMessage = pre ++ "Please try again later." ++ post) :=
  connection_failure_yields_retry_message unreachableProcessor stubSave
    sampleOnetime [ProcCall.createCustomer "tok_valid"] rfl

/-- Claim C6: on every run whose try-block raises an authentication failure
or any error outside the classified ones, the original error propagates
unchanged, not wrapped in a user-facing DonationError, and no Donation row
is written. -/
theorem auth_and_unknown_errors_reraised (proc : Processor)
    (save : Donation → Except String Unit) (cd : CleanedData)
    (e : StripeError) (calls : List ProcCall)
    (h : tryBlock proc cd = (.error e, calls))
    (hf : e = .authenticationError ∨ (∃ m, e = .otherStripeError m) ∨
       (∃ m, e = .otherException m)) :
    make_donation proc save cd = (DonationOutcome.reraised e, calls, []) := by
  rw [make_donation_of_tryBlock_error proc save cd e calls h]
  rcases hf with rfl | ⟨m, rfl⟩ | ⟨m, rfl⟩ <;> rfl

/-- Witness for C6 on the stub processor whose credentials are rejected at
the customer call. -/
theorem auth_and_unknown_errors_reraised_witness :
    make_donation authFailProcessor stubSave sampleOnetime =
      (DonationOutcome.reraised .authenticationError,
       [ProcCall.createCustomer "tok_valid"], []) :=
  auth_and_unknown_errors_reraised authFailProcessor stubSave sampleOnetime
    .authenticationError [ProcCall.createCustomer "tok_valid"]
    rfl (Or.inl rfl)

/-- Claim C7: a blank receipt email never reaches the processor as an empty
string: every charge call of every run carries either none or the non-empty
address from cleaned_data, the empty string having been normalized to none
beforehand. -/
theorem receipt_email_never_empty_string (proc : Processor)
    (save : Donation → Except String Unit) (cd : CleanedData)
    (a : Int) (c cu : String) (r : Option String)
    (h : ProcCall.createCharge a c cu r ∈ (make_donation proc save cd).2.1) :
    r ≠ some "" ∧ (cd.receipt_email = "" → r = none) ∧
    (cd.receipt_email ≠ "" → r = some cd.receipt_email) := by
  rcases make_donation_call_shape proc save cd _ h with h2 | ⟨_, cu2, h2⟩ | ⟨_, cu2, h2⟩
  · simp at h2
  · simp only [ProcCall.createCharge.injEq] at h2
    obtain ⟨-, -, -, hr⟩ := h2
    subst hr
    unfold orNoneIfEmpty
    by_cases he : cd.receipt_email = ""
    · rw [if_pos he]
      exact ⟨by simp, fun _ => rfl, fun hne => absurd he hne⟩
    · rw [if_neg he]
      exact ⟨by simpa using he, fun heq => absurd heq he, fun _ => rfl⟩
  · simp at h2

/-- Witness for C7 on the stub run of the onetime donation with a blank
receipt email field, whose charge call carries none. -/
theorem receipt_email_never_empty_string_witness :
    (none : Option String) ≠ some "" ∧
    (sampleOnetime.receipt_email = "" → (none : Option String) = none) ∧
    (sampleOnetime.receipt_email ≠ "" →
       (none : Option String) = some sampleOnetime.receipt_email) :=
  receipt_email_never_empty_string stubProcessor stubSave sampleOnetime
    2500 "usd" "cus_1" none (by decide)

/-- A rejected amount makes form validation fail with that error at the
head of the collected field errors. -/
theorem full_clean_error_of_amount (raw : RawPayment) (m : String)
    (ha : clean_amount raw.amount = .error m) :
    full_clean raw =
      .error ([m] ++ errList (clean_interval raw.interval) ++
        errList (clean_stripe_token raw.stripe_token)) := by
  unfold full_clean
  rw [ha]
  cases clean_interval raw.interval <;> cases clean_stripe_token raw.stripe_token <;> rfl

/-- A rejected interval makes form validation fail with a non-empty error
list. -/
theorem full_clean_error_of_interval (raw : RawPayment) (m : String)
    (hi : clean_interval raw.interval = .error m) :
    ∃ errs, errs ≠ [] ∧ full_clean raw = .error errs := by
  unfold full_clean
  rw [hi]
  cases ha : clean_amount raw.amount with
  | error m0 =>
      refine ⟨_, ?_, rfl⟩
      simp [errList]
  | ok a =>
      refine ⟨_, ?_, rfl⟩
      simp [errList]

/-- A form validation failure short-circuits the view flow: no processor
call, no written row. -/
theorem process_of_full_clean_error (proc : Processor)
    (save : Donation → Except String Unit) (raw : RawPayment)
    (errs : List String) (he : full_clean raw = .error errs) :
    process proc save raw = (ProcessResult.invalid errs, [], []) := by
  unfold process
  rw [he]

/-- Claim C8: validation rejects any amount that is not a positive integer
of at least 1 (non-numeric included) and any interval outside the four
recognized choices, and either rejection ends the run with a non-empty
error list, zero processor calls and no written Donation; amount 0 falls
under the first case. -/
theorem validation_rejections (proc : Processor)
    (save : Donation → Except String Unit) (raw : RawPayment) :
    ((∀ n, raw.amount = some n → n < 1) →
       ∃ errs, errs ≠ [] ∧
         process proc save raw = (ProcessResult.invalid errs, [], [])) ∧
    (raw.interval ∉ (INTERVAL_CHOICES.map Prod.fst) →
       ∃ errs, errs ≠ [] ∧
         process proc save raw = (ProcessResult.invalid errs, [], [])) := by
  constructor
  · intro hlt
    have ha : ∃ m, clean_amount raw.amount = .error m := by
      cases ham : raw.amount with
      | none => exact ⟨_, rfl⟩
      | some n =>
          refine ⟨"Ensure this value is greater than or equal to 1.", ?_⟩
          simp only [clean_amount]
          rw [if_pos (hlt n ham)]
    obtain ⟨m, ha⟩ := ha
    refine ⟨_, ?_, process_of_full_clean_error proc save raw _
      (full_clean_error_of_amount raw m ha)⟩
    simp
  · intro hint
    have hi : clean_interval raw.interval = .error "Select a valid choice." := by
      unfold clean_interval
      rw [if_neg (by simpa using hint)]
    obtain ⟨errs, hne, hfc⟩ := full_clean_error_of_interval raw _ hi
    exact ⟨errs, hne, process_of_full_clean_error proc save raw errs hfc⟩

/-- Witness for C8 on the raw submission with amount 0: validation fails
and the processor sees zero calls. -/
theorem validation_rejections_witness :
    ∃ errs, errs ≠ [] ∧
      process stubProcessor stubSave sampleRawZero =
        (ProcessResult.invalid errs, [], []) :=
  (validation_rejections stubProcessor stubSave sampleRawZero).1
    (fun n hn => by injection hn with hn; omega)

/-- Claim C9: on every run, a Donation row is written only when the outcome
is the success carrying that very row and both processor steps of the
try-block succeeded; whenever the try-block raises, nothing is written and
the outcome is what the except-chain makes of the error. -/
theorem no_donation_on_failure (proc : Processor)
    (save : Donation → Except String Unit) (cd : CleanedData)
    (o : DonationOutcome) (calls : List ProcCall) (saved : List Donation)
    (h : make_donation proc save cd = (o, calls, saved)) :
    (∀ d, d ∈ saved → o = DonationOutcome.success d ∧
       ∃ cu ch sub, tryBlock proc cd = (.ok (cu, ch, sub), calls)) ∧
    (∀ e, (tryBlock proc cd).1 = .error e →
       saved = [] ∧ o = dispatchError e) := by
  rcases tryBlock_cases proc cd with
      ⟨e0, _, htb⟩ | ⟨cu, e0, _, _, _, htb⟩ | ⟨cu, ch, _, _, _, htb⟩ |
      ⟨cu, e0, _, _, _, htb⟩ | ⟨cu, sub, _, _, _, htb⟩
  · rw [make_donation_of_tryBlock_error proc save cd e0 _ htb] at h
    simp only [Prod.mk.injEq] at h
    obtain ⟨ho, hcalls, hsaved⟩ := h
    subst ho
    subst hcalls
    subst hsaved
    constructor
    · intro d hd
      simp at hd
    · intro e he
      rw [htb] at he
      injection he with he
      subst he
      exact ⟨rfl, rfl⟩
  · rw [make_donation_of_tryBlock_error proc save cd e0 _ htb] at h
    simp only [Prod.mk.injEq] at h
    obtain ⟨ho, hcalls, hsaved⟩ := h
    subst ho
    subst hcalls
    subst hsaved
    constructor
    · intro d hd
      simp at hd
    · intro e he
      rw [htb] at he
      injection he with he
      subst he
      exact ⟨rfl, rfl⟩
  · cases hsv : save (donationOf cd cu ch "") with
    | error m =>
        rw [make_donation_of_save_error proc save cd cu ch "" _ m htb hsv] at h
        simp only [Prod.mk.injEq] at h
        obtain ⟨ho, hcalls, hsaved⟩ := h
        subst ho
        subst hcalls
        subst hsaved
        constructor
        · intro d hd
          simp at hd
        · intro e he
          rw [htb] at he
          simp at he
    | ok u =>
        cases u
        rw [make_donation_of_save_ok proc save cd cu ch "" _ htb hsv] at h
        simp only [Prod.mk.injEq] at h
        obtain ⟨ho, hcalls, hsaved⟩ := h
        subst ho
        subst hcalls
        subst hsaved
        constructor
        · intro d hd
          simp only [List.mem_singleton] at hd
          subst hd
          exact ⟨rfl, cu, ch, "", htb⟩
        · intro e he
          rw [htb] at he
          simp at he
  · rw [make_donation_of_tryBlock_error proc save cd e0 _ htb] at h
    simp only [Prod.mk.injEq] at h
    obtain ⟨ho, hcalls, hsaved⟩ := h
    subst ho
    subst hcalls
    subst hsaved
    constructor
    · intro d hd
      simp at hd
    · intro e he
      rw [htb] at he
      injection he with he
      subst he
      exact ⟨rfl, rfl⟩
  · cases hsv : save (donationOf cd cu "" sub) with
    | error m =>
        rw [make_donation_of_save_error proc save cd cu "" sub _ m htb hsv] at h
        simp only [Prod.mk.injEq] at h
        obtain ⟨ho, hcalls, hsaved⟩ := h
        subst ho
        subst hcalls
        subst hsaved
        constructor
        · intro d hd
          simp at hd
        · intro e he
          rw [htb] at he
          simp at he
    | ok u =>
        cases u
        rw [make_donation_of_save_ok proc save cd cu "" sub _ htb hsv] at h
        simp only [Prod.mk.injEq] at h
        obtain ⟨ho, hcalls, hsaved⟩ := h
        subst ho
        subst hcalls
        subst hsaved
        constructor
        · intro d hd
          simp only [List.mem_singleton] at hd
          subst hd
          exact ⟨rfl, cu, "", sub, htb⟩
        · intro e he
          rw [htb] at he
          simp at he

/-- Witness for C9 on the run whose customer call hits an authentication
failure: nothing is written and the error is re-raised. -/
theorem no_donation_on_failure_witness :
    (∀ d, d ∈ ([] : List Donation) →
       DonationOutcome.reraised StripeError.authenticationError =
         DonationOutcome.success d ∧
       ∃ cu ch sub, tryBlock authFailProcessor sampleOnetime =
         (.ok (cu, ch, sub), [ProcCall.createCustomer "tok_valid"])) ∧
    (∀ e, (tryBlock authFailProcessor sampleOnetime).1 = .error e →
       ([] : List Donation) = [] ∧
       DonationOutcome.reraised StripeError.authenticationError =
         dispatchError e) :=
  no_donation_on_failure authFailProcessor stubSave sampleOnetime
    (DonationOutcome.reraised StripeError.authenticationError)
    [ProcCall.createCustomer "tok_valid"] [] rfl

/-- Claim C10: on every run with a recurring interval, no charge call is
issued at all, every processor call is either the customer call with the
token or the subscription call carrying only the plan and the quantity (the
receipt email appears in no call), and the email is kept only in the
written Donation row. -/
theorem recurring_subscription_without_email (proc : Processor)
    (save : Donation → Except String Unit) (cd : CleanedData)
    (hrec : cd.interval ≠ "onetime") :
    (∀ a c cu r, ProcCall.createCharge a c cu r ∉ (make_donation proc save cd).2.1) ∧
    (∀ call ∈ (make_donation proc save cd).2.1,
       call = ProcCall.createCustomer cd.stripe_token ∨
       ∃ cu, call = ProcCall.createSubscription cu cd.interval cd.amount) ∧
    (∀ d ∈ (make_donation proc save cd).2.2,
       d.receipt_email = cd.receipt_email) := by
  refine ⟨?_, ?_, ?_⟩
  · intro a c cu r hmem
    rcases make_donation_call_shape proc save cd _ hmem with h | ⟨hi, _, h⟩ | ⟨_, _, h⟩
    · simp at h
    · exact hrec hi
    · simp at h
  · intro call hmem
    rcases make_donation_call_shape proc save cd call hmem with h | ⟨hi, _, h⟩ | ⟨_, cu, h⟩
    · exact Or.inl h
    · exact absurd hi hrec
    · exact Or.inr ⟨cu, h⟩
  · intro d hd
    exact (make_donation_saved_shape proc save cd d hd).2.1

/-- Witness for C10 on the stub run of the 10 dollar monthly donation. -/
theorem recurring_subscription_without_email_witness :
    (∀ a c cu r, ProcCall.createCharge a c cu r ∉
       (make_donation stubProcessor stubSave sampleMonthly).2.1) ∧
    (∀ call ∈ (make_donation stubProcessor stubSave sampleMonthly).2.1,
       call = ProcCall.createCustomer sampleMonthly.stripe_token ∨
       ∃ cu, call = ProcCall.createSubscription cu sampleMonthly.interval
         sampleMonthly.amount) ∧
    (∀ d ∈ (make_donation stubProcessor stubSave sampleMonthly).2.2,
       d.receipt_email = sampleMonthly.receipt_email) :=
  recurring_subscription_without_email stubProcessor stubSave sampleMonthly
    (by decide)

end Fundraising
